import Mathlib

/-! The declaration surface of the native FFT bindings, `MKLFFTW.h`.

The only source file of this development is the header
`src/main/java/net/imagej/ops/experiments/fft/MKLFFTW.h`.  It is embedded
verbatim, line by line, as `MKLFFTW_h`.  A small lexer and a declaration
reader for the C fragment that occurs in headers (preprocessor lines,
function declarations with an optional `__declspec(...)` marker, brace
delimited bodies) turn the text into a list of declarations, and every
statement below is about what that reader finds in the text.  The header
holds no function body, so nothing here speaks of the values the declared
functions compute.
-/

namespace MKLFFTW

/-! ## The source text -/

/-- The twelve lines of `MKLFFTW.h`, in order, without the line ends. -/
def MKLFFTW_h : List String :=
  [ "#pragma once"
  , ""
  , "#include \"fftw/fftw3.h\""
  , "#include \"fftw/fftw3_mkl.h\""
  , ""
  , "__declspec(dllexport) void testMKLFFTW(float * x_, float * y_, int width, int height);"
  , ""
  , "__declspec(dllexport) void mklConvolve(float * x, float *h, float * X_, float * H_, const int width, const int height);"
  , ""
  , "__declspec(dllexport) void mklRichardsonLucy3D(float * x, float *h, float*y, fftwf_complex* FFT_, fftwf_complex* H_, const int n0, const int n1, const int n2);"
  , ""
  , "void testMKLFFT();"
  ]

/-! ## Lexical structure -/

/-- A lexical unit of a code line: a word (identifier, keyword or number) or
a single punctuation character. -/
inductive Token where
  | word (s : String)
  | sym (c : Char)
  deriving DecidableEq, Repr

/-- The spelling of a token as it stands in the text. -/
def Token.spelling : Token → String
  | .word s => s
  | .sym c => String.mk [c]

/-- Characters that may occur inside a word. -/
def isWordChar (c : Char) : Bool := c.isAlphanum || c == '_'

/-- Close the word collected so far (kept in reverse) in front of `ts`. -/
def flush (acc : List Char) (ts : List Token) : List Token :=
  if acc.isEmpty then ts else Token.word (String.mk acc.reverse) :: ts

/-- Lexer on characters; `acc` is the current word, reversed.  White space
separates tokens, every other non-word character is a token of its own. -/
def lexAux : List Char → List Char → List Token
  | [], acc => flush acc []
  | c :: cs, acc =>
    if isWordChar c then lexAux cs (c :: acc)
    else if c.isWhitespace then flush acc (lexAux cs [])
    else flush acc (Token.sym c :: lexAux cs [])

/-- A line of the file: a preprocessor directive with its argument text, or
a line of code as tokens. -/
inductive Line where
  | directive (name : String) (arg : String)
  | code (ts : List Token)
  deriving DecidableEq, Repr

/-- A line whose first non-blank character is the hash sign is a directive;
its name is the word after the hash sign and its argument the rest of the
line.  Any other line is code. -/
def classify (s : String) : Line :=
  match s.toList.dropWhile Char.isWhitespace with
  | '#' :: rest =>
    let body := rest.dropWhile Char.isWhitespace
    Line.directive (String.mk (body.takeWhile isWordChar))
      (String.mk ((body.dropWhile isWordChar).dropWhile Char.isWhitespace))
  | cs => Line.code (lexAux cs [])

/-- The directives of a file, as pairs of name and argument, in order. -/
def directivesOf : List String → List (String × String)
  | [] => []
  | s :: rest =>
    match classify s with
    | .directive n a => (n, a) :: directivesOf rest
    | .code _ => directivesOf rest

/-- The code tokens of a file: C is free-form, so the code lines are read as
one token stream. -/
def tokensOf : List String → List Token
  | [] => []
  | s :: rest =>
    match classify s with
    | .directive _ _ => tokensOf rest
    | .code ts => ts ++ tokensOf rest

/-- The file named by the argument of an include directive, between double
quotes or between angle brackets. -/
def includeTarget (arg : String) : Option String :=
  match arg.toList with
  | [] => none
  | c :: rest =>
    if c = Char.ofNat 34 then some (String.mk (rest.takeWhile (fun x => x != Char.ofNat 34)))
    else if c = '<' then some (String.mk (rest.takeWhile (fun x => x != '>')))
    else none

/-- The files included by a file, in order.  An include directive whose
argument is not of one of the two forms is kept, with its argument as is. -/
def includesOf (src : List String) : List String :=
  ((directivesOf src).filter (fun d => d.1 == "include")).map
    (fun d => (includeTarget d.2).getD d.2)

/-! ## Declarations -/

/-- A top-level item of the token stream: the tokens up to the terminating
semicolon or up to the opening brace of a block, and whether such a block
follows. -/
structure Item where
  toks : List Token
  block : Bool
  deriving DecidableEq, Repr

/-- Cut a token stream into top-level items.  `acc` holds the tokens of the
current item in reverse, the number is the depth of open braces.  At depth
zero a semicolon ends the item and an opening brace ends it with a block;
the tokens inside a block are skipped.  Items without tokens are dropped;
tokens left over at the end form a last item. -/
def splitItems : List Token → List Token → Nat → List Item
  | [], acc, _ => if acc.isEmpty then [] else [⟨acc.reverse, false⟩]
  | t :: ts, acc, 0 =>
    if t = Token.sym ';' then
      (if acc.isEmpty then splitItems ts [] 0 else ⟨acc.reverse, false⟩ :: splitItems ts [] 0)
    else if t = Token.sym '{' then ⟨acc.reverse, true⟩ :: splitItems ts [] 1
    else splitItems ts (t :: acc) 0
  | t :: ts, acc, d + 1 =>
    if t = Token.sym '{' then splitItems ts acc (d + 2)
    else if t = Token.sym '}' then splitItems ts acc d
    else splitItems ts acc (d + 1)

/-- A parameter of a function declaration: the spelling of its type, token
by token, and its name (empty when the parameter is unnamed). -/
structure Param where
  type : List String
  name : String
  deriving DecidableEq, Repr

/-- A function declaration: the argument of its `__declspec` marker when it
carries one, the spelling of its return type, its name, its parameters, and
whether a body follows the parameter list. -/
structure Decl where
  declspec : Option String
  returnType : List String
  name : String
  params : List Param
  hasBody : Bool
  deriving DecidableEq, Repr

/-- A declaration is exported when it carries `__declspec(dllexport)`. -/
def Decl.exported (d : Decl) : Bool := d.declspec == some "dllexport"

/-- Words of C that spell a type and so cannot be a parameter name. -/
def typeWords : List String :=
  ["void", "char", "short", "int", "long", "float", "double", "signed", "unsigned", "const"]

/-- Split the tokens of a parameter list at the commas. -/
def splitCommas : List Token → List Token → List (List Token)
  | [], acc => [acc.reverse]
  | t :: ts, acc =>
    if t = Token.sym ',' then acc.reverse :: splitCommas ts [] else splitCommas ts (t :: acc)

/-- One parameter: the last token is its name when it is a word that does
not spell a type and something stands before it; what stands before it is
the type. -/
def parseParam (ts : List Token) : Param :=
  match ts.reverse with
  | Token.word n :: t :: rest =>
    if typeWords.contains n then ⟨ts.map Token.spelling, ""⟩
    else ⟨(t :: rest).reverse.map Token.spelling, n⟩
  | _ => ⟨ts.map Token.spelling, ""⟩

/-- The parameters between the parentheses; `()` and `(void)` declare
none. -/
def parseParams (ts : List Token) : List Param :=
  if ts.isEmpty || ts == [Token.word "void"] then [] else (splitCommas ts []).map parseParam

/-- Take a leading `__declspec ( m )` off an item. -/
def stripDeclspec : List Token → Option String × List Token
  | Token.word w :: Token.sym a :: Token.word m :: Token.sym b :: rest =>
    if w == "__declspec" && a == '(' && b == ')' then (some m, rest)
    else (none, Token.word w :: Token.sym a :: Token.word m :: Token.sym b :: rest)
  | ts => (none, ts)

/-- Read an item as a function declaration: an optional `__declspec`
marker, the return type, the name (the word right before the opening
parenthesis), and the parameter list, which must run to the end of the
item.  Items of another shape are not function declarations. -/
def parseDecl (it : Item) : Option Decl :=
  let sr := stripDeclspec it.toks
  let pre := sr.2.takeWhile (fun t => t != Token.sym '(')
  let post := sr.2.dropWhile (fun t => t != Token.sym '(')
  match pre.reverse, post.reverse with
  | Token.word n :: ty, Token.sym c :: _ =>
    if c = ')' then
      some { declspec := sr.1
             returnType := ty.reverse.map Token.spelling
             name := n
             params := parseParams (post.tail.dropLast)
             hasBody := it.block }
    else none
  | _, _ => none

/-- The top-level items of a file. -/
def itemsOf (src : List String) : List Item := splitItems (tokensOf src) [] 0

/-- The function declarations of a file, in order. -/
def declsOf (src : List String) : List Decl := (itemsOf src).filterMap parseDecl

/-- A raw numeric buffer: `float *` (real values) or `fftwf_complex *`
(complex values). -/
def Param.isBuffer (p : Param) : Bool :=
  p.type == ["float", "*"] || p.type == ["fftwf_complex", "*"]

/-- An integer dimension: `int` or `const int`. -/
def Param.isDimension (p : Param) : Bool :=
  p.type == ["int"] || p.type == ["const", "int"]

/-- The names of the integer dimensions a declaration takes, in order. -/
def Decl.dimensions (d : Decl) : List String :=
  (d.params.filter Param.isDimension).map Param.name

/-- Words of C and C++ that introduce the definition of a data structure. -/
def dataKeywords : List String := ["struct", "class", "union", "enum", "typedef"]

/-- Words of C that form control flow. -/
def controlKeywords : List String :=
  ["if", "else", "for", "while", "do", "switch", "case", "default", "break", "continue",
   "goto", "return"]

/-! ## The header -/

/-- The code tokens of `MKLFFTW.h`. -/
def tokens : List Token := tokensOf MKLFFTW_h

/-- The preprocessor directives of `MKLFFTW.h`. -/
def directives : List (String × String) := directivesOf MKLFFTW_h

/-- The files `MKLFFTW.h` includes. -/
def includes : List String := includesOf MKLFFTW_h

/-- The top-level items of `MKLFFTW.h`. -/
def items : List Item := itemsOf MKLFFTW_h

/-- The function declarations of `MKLFFTW.h`. -/
def declarations : List Decl := declsOf MKLFFTW_h

/-- The declaration of a given name in `MKLFFTW.h`, if there is one. -/
def lookup (n : String) : Option Decl := declarations.find? (fun d => d.name == n)

/-- The declaration of `testMKLFFTW`. -/
def testMKLFFTW : Option Decl := lookup "testMKLFFTW"

/-- The declaration of `mklConvolve`. -/
def mklConvolve : Option Decl := lookup "mklConvolve"

/-- The declaration of `mklRichardsonLucy3D`. -/
def mklRichardsonLucy3D : Option Decl := lookup "mklRichardsonLucy3D"

/-- The declaration of `testMKLFFT`. -/
def testMKLFFT : Option Decl := lookup "testMKLFFT"

/-! ## What the reader finds in the header -/

/-- The four declarations of the header, as read from its text. -/
theorem declarations_eq : declarations =
    [ { declspec := some "dllexport", returnType := ["void"], name := "testMKLFFTW",
        params := [⟨["float", "*"], "x_"⟩, ⟨["float", "*"], "y_"⟩, ⟨["int"], "width"⟩,
                   ⟨["int"], "height"⟩],
        hasBody := false },
      { declspec := some "dllexport", returnType := ["void"], name := "mklConvolve",
        params := [⟨["float", "*"], "x"⟩, ⟨["float", "*"], "h"⟩, ⟨["float", "*"], "X_"⟩,
                   ⟨["float", "*"], "H_"⟩, ⟨["const", "int"], "width"⟩,
                   ⟨["const", "int"], "height"⟩],
        hasBody := false },
      { declspec := some "dllexport", returnType := ["void"], name := "mklRichardsonLucy3D",
        params := [⟨["float", "*"], "x"⟩, ⟨["float", "*"], "h"⟩, ⟨["float", "*"], "y"⟩,
                   ⟨["fftwf_complex", "*"], "FFT_"⟩, ⟨["fftwf_complex", "*"], "H_"⟩,
                   ⟨["const", "int"], "n0"⟩, ⟨["const", "int"], "n1"⟩,
                   ⟨["const", "int"], "n2"⟩],
        hasBody := false },
      { declspec := none, returnType := ["void"], name := "testMKLFFT", params := [],
        hasBody := false } ] := by
  decide

/-- The three directives of the header, as read from its text. -/
theorem directives_eq : directives =
    [("pragma", "once"), ("include", "\"fftw/fftw3.h\""), ("include", "\"fftw/fftw3_mkl.h\"")] := by
  decide

/-- Nothing of the code is lost between the items and the declarations: each
top-level item of the header reads as a function declaration. -/
theorem items_are_declarations : items.map parseDecl = declarations.map some := by
  decide

/-- The names declared in the header are pairwise distinct, so a name stands
for one declaration. -/
theorem declared_names_nodup : (declarations.map Decl.name).Nodup := by
  decide

/-! ## The reader on other texts

The reader is not tied to this header: on texts that do have a body, another
marker, a data structure or an include in angle brackets it reports them. -/

/-- A function definition is read with its body flagged, and the tokens of
the body are not taken for further declarations. -/
theorem declsOf_definition :
    declsOf ["int f(int a) { if (a) { return a; } return 0; }", "double g(void);"]
      = [ ⟨none, ["int"], "f", [⟨["int"], "a"⟩], true⟩, ⟨none, ["double"], "g", [], false⟩ ] := by
  decide

/-- A marker other than `dllexport` does not export. -/
theorem declsOf_dllimport :
    (declsOf ["__declspec(dllimport) int f();", "int g();"]).map Decl.exported
      = [false, false] := by
  decide

/-- A structure definition is no function declaration, and its keyword and
braces are among the tokens. -/
theorem tokensOf_struct :
    declsOf ["struct S { int x; };"] = []
    ∧ tokensOf ["struct S { int x; };"]
        = [.word "struct", .word "S", .sym '{', .word "int", .word "x", .sym ';', .sym '}',
           .sym ';'] := by
  decide

/-- Includes in angle brackets are read as well. -/
theorem includesOf_angle :
    includesOf ["#include <math.h>", "  #  include \"a/b.h\"", "#define N 3"]
      = ["math.h", "a/b.h"] := by
  decide

/-! ## The claims -/

/-- C1: the declarations of `MKLFFTW.h` that carry `__declspec(dllexport)`
are exactly `testMKLFFTW`, `mklConvolve` and `mklRichardsonLucy3D`, in this
order, and the only declaration that does not carry it is `testMKLFFT`. -/
theorem exported_are_exactly_three :
    (declarations.filter Decl.exported).map Decl.name
        = ["testMKLFFTW", "mklConvolve", "mklRichardsonLucy3D"]
    ∧ (declarations.filter (fun d => !d.exported)).map Decl.name = ["testMKLFFT"]
    ∧ testMKLFFT.map Decl.exported = some false := by
  decide

/-- C2: the functions declared in `MKLFFTW.h` are `testMKLFFTW`,
`mklConvolve`, `mklRichardsonLucy3D` and `testMKLFFT`, and each of them has
return type `void`: none declares a return code or error value. -/
theorem every_declaration_returns_void :
    declarations.map Decl.name
        = ["testMKLFFTW", "mklConvolve", "mklRichardsonLucy3D", "testMKLFFT"]
    ∧ ∀ d ∈ declarations, d.returnType = ["void"] := by
  decide

/-- C2, at the declaration of `testMKLFFT`. -/
theorem every_declaration_returns_void_witness :
    (⟨none, ["void"], "testMKLFFT", [], false⟩ : Decl) ∈ declarations
    ∧ Decl.returnType ⟨none, ["void"], "testMKLFFT", [], false⟩ = ["void"] :=
  ⟨by decide, every_declaration_returns_void.2 _ (by decide)⟩

/-- C3, as stated, fails: the list of function declarations of `MKLFFTW.h`
does not have length three. -/
theorem declarations_length_ne_three : ¬ declarations.length = 3 := by
  decide

/-- C3, amended: `MKLFFTW.h` declares four functions, `testMKLFFTW`,
`mklConvolve`, `mklRichardsonLucy3D` and `testMKLFFT`; three of them are
exported, and the fourth, `testMKLFFT`, is not exported and takes no
parameter. -/
theorem declarations_length_four :
    declarations.length = 4
    ∧ (declarations.filter Decl.exported).length = 3
    ∧ declarations.map Decl.name
        = ["testMKLFFTW", "mklConvolve", "mklRichardsonLucy3D", "testMKLFFT"]
    ∧ testMKLFFT = some ⟨none, ["void"], "testMKLFFT", [], false⟩ := by
  decide

/-- C6: every parameter of every function declared in `MKLFFTW.h` is a raw
numeric buffer (`float *` or `fftwf_complex *`) or an integer dimension
(`int` or `const int`); the integer dimensions of `mklConvolve` are exactly
`width` and `height`, those of `mklRichardsonLucy3D` exactly `n0`, `n1` and
`n2`. -/
theorem parameters_are_buffers_or_dimensions :
    (∀ d ∈ declarations, ∀ p ∈ d.params, p.isBuffer = true ∨ p.isDimension = true)
    ∧ mklConvolve.map Decl.dimensions = some ["width", "height"]
    ∧ mklRichardsonLucy3D.map Decl.dimensions = some ["n0", "n1", "n2"] := by
  decide

/-- C6, at the parameter `n2` of `mklRichardsonLucy3D`. -/
theorem parameters_are_buffers_or_dimensions_witness :
    (⟨some "dllexport", ["void"], "mklRichardsonLucy3D",
        [⟨["float", "*"], "x"⟩, ⟨["float", "*"], "h"⟩, ⟨["float", "*"], "y"⟩,
         ⟨["fftwf_complex", "*"], "FFT_"⟩, ⟨["fftwf_complex", "*"], "H_"⟩,
         ⟨["const", "int"], "n0"⟩, ⟨["const", "int"], "n1"⟩, ⟨["const", "int"], "n2"⟩],
        false⟩ : Decl) ∈ declarations
    ∧ (Param.isBuffer ⟨["const", "int"], "n2"⟩ = true
        ∨ Param.isDimension ⟨["const", "int"], "n2"⟩ = true) :=
  ⟨by decide,
   parameters_are_buffers_or_dimensions.1
     ⟨some "dllexport", ["void"], "mklRichardsonLucy3D",
        [⟨["float", "*"], "x"⟩, ⟨["float", "*"], "h"⟩, ⟨["float", "*"], "y"⟩,
         ⟨["fftwf_complex", "*"], "FFT_"⟩, ⟨["fftwf_complex", "*"], "H_"⟩,
         ⟨["const", "int"], "n0"⟩, ⟨["const", "int"], "n1"⟩, ⟨["const", "int"], "n2"⟩],
        false⟩
     (by decide) ⟨["const", "int"], "n2"⟩ (by decide)⟩

/-- C7: `MKLFFTW.h` contains declarations only.  Each top-level item of its
code is a function declaration, none of the declared functions has a body,
no token of the code is a brace, a word that defines a data structure
(`struct`, `class`, `union`, `enum`, `typedef`) or a word of control flow,
and its only preprocessor lines are one `pragma` and two `include`. -/
theorem header_is_declarations_only :
    items.map parseDecl = declarations.map some
    ∧ (∀ d ∈ declarations, d.hasBody = false)
    ∧ (∀ t ∈ tokens, t ≠ Token.sym '{' ∧ t ≠ Token.sym '}'
        ∧ t.spelling ∉ dataKeywords ∧ t.spelling ∉ controlKeywords)
    ∧ directives.map Prod.fst = ["pragma", "include", "include"] := by
  decide

/-- C7, at the declaration of `testMKLFFT` and at the token `void`. -/
theorem header_is_declarations_only_witness :
    ((⟨none, ["void"], "testMKLFFT", [], false⟩ : Decl) ∈ declarations
      ∧ Decl.hasBody ⟨none, ["void"], "testMKLFFT", [], false⟩ = false)
    ∧ (Token.word "void" ∈ tokens
      ∧ (Token.word "void").spelling ∉ controlKeywords) :=
  ⟨⟨by decide, header_is_declarations_only.2.1 _ (by decide)⟩,
   ⟨by decide, (header_is_declarations_only.2.2.1 (Token.word "void") (by decide)).2.2.2⟩⟩

/-- C8: `MKLFFTW.h` includes exactly two headers, `fftw/fftw3.h` and
`fftw/fftw3_mkl.h`, in this order, and no other. -/
theorem includes_are_exactly_two :
    includes = ["fftw/fftw3.h", "fftw/fftw3_mkl.h"] ∧ includes.length = 2 := by
  decide

end MKLFFTW
